import Mathlib

/-!
Verification development for the sendly-go SMS client library.

The Go source is shallowly embedded: pure logic becomes Lean functions,
the retry loop of `Client.request` becomes a fuel-based recursion that
also records, per HTTP attempt, how many seconds the loop slept before
and after the attempt. JSON parsing of response bodies is not
re-implemented: the parse result of the error payload is an oracle
parameter (`Option APIError`), exactly the two outcomes Go's
`json.Unmarshal` can produce there.
-/

namespace Sendly

/-- The error payload `{code, message, details?}` returned by the remote
service (`APIError` in the Go source).  The open `Details`
map (`map[string]interface{}`) carries arbitrary JSON and is read by no
code path modelled here, so it is omitted from the embedding. -/
structure APIError where
  code : String
  message : String
deriving DecidableEq, Repr

/-- The closed set of error values the library can produce, one
constructor per concrete Go error type (`SendlyError`,
`AuthenticationError`, `RateLimitError`, `InsufficientCreditsError`,
`ValidationError`, `NotFoundError`, `NetworkError`).  `other` stands for
any error value of an unrelated dynamic type (a Go `error` not created
by this library); wrapped causes (`Err error` fields) are modelled by
the message of the wrapped error. -/
inductive GoError where
  | sendly (apiError : APIError) (statusCode : Nat)
  | authentication (apiError : APIError)
  | rateLimit (apiError : APIError) (retryAfter : Int)
  | insufficientCredits (apiError : APIError)
  | validation (apiError : APIError) (err : Option String)
  | notFound (apiError : APIError)
  | network (message : String) (err : Option String)
  | other (description : String)
deriving DecidableEq, Repr

/-- A Go `error` interface value: `none` is the nil interface. -/
abbrev GoErrorValue := Option GoError

/-- `IsAuthenticationError` from errors.go: the type assertion
`err.(*AuthenticationError)`. -/
def IsAuthenticationError : GoErrorValue → Bool
  | some (.authentication _) => true
  | _ => false

/-- `IsRateLimitError` from errors.go. -/
def IsRateLimitError : GoErrorValue → Bool
  | some (.rateLimit _ _) => true
  | _ => false

/-- `IsInsufficientCreditsError` from errors.go. -/
def IsInsufficientCreditsError : GoErrorValue → Bool
  | some (.insufficientCredits _) => true
  | _ => false

/-- `IsValidationError` from errors.go. -/
def IsValidationError : GoErrorValue → Bool
  | some (.validation _ _) => true
  | _ => false

/-- `IsNotFoundError` from errors.go. -/
def IsNotFoundError : GoErrorValue → Bool
  | some (.notFound _) => true
  | _ => false

/-- `IsNetworkError` from errors.go. -/
def IsNetworkError : GoErrorValue → Bool
  | some (.network _ _) => true
  | _ => false

/-- Two's-complement wrap of an integer to Go's 64-bit `int`
(`int64` arithmetic in Go wraps on overflow). -/
def wrap64 (n : Int) : Int :=
  (n + 9223372036854775808) % 18446744073709551616 - 9223372036854775808

/-- `time.Duration(n) * time.Second` in Go: the count of nanoseconds,
an `int64` multiplication that wraps on overflow. -/
def durationSeconds (n : Int) : Int := wrap64 (n * 1000000000)

/-- Digit run parser underlying `strconv.Atoi`: consumes the remaining
characters, failing on the first non-digit. -/
def parseNatCore : List Char → Nat → Option Nat
  | [], acc => some acc
  | c :: cs, acc =>
    if c.isDigit then parseNatCore cs (acc * 10 + (c.toNat - 48)) else none

/-- `strconv.Atoi` as it is used in `handleErrorResponse`: the parsed
integer, `0` when the string is not a well-formed decimal, and the
clamped `MaxInt64` / `MinInt64` when the value is out of range (Go's
`Atoi` returns the clamped value together with a range error; the
caller discards the error in both failure modes). -/
def atoi (s : String) : Int :=
  match s.data with
  | [] => 0
  | '-' :: cs => match parseNatCore cs 0 with
    | some n =>
      if (n : Int) > 9223372036854775808 then -9223372036854775808 else -(n : Int)
    | none => 0
  | '+' :: cs => match parseNatCore cs 0 with
    | some n =>
      if (n : Int) > 9223372036854775807 then 9223372036854775807 else (n : Int)
    | none => 0
  | cs => match parseNatCore cs 0 with
    | some n =>
      if (n : Int) > 9223372036854775807 then 9223372036854775807 else (n : Int)
    | none => 0

/-- The `APIError` value `handleErrorResponse` works with: the parsed
body when `json.Unmarshal` succeeded, else the fallback
`{Code: "UNKNOWN_ERROR", Message: string(body)}`. -/
def errorPayload (body : String) (parsed : Option APIError) : APIError :=
  match parsed with
  | some e => e
  | none => { code := "UNKNOWN_ERROR", message := body }

/-- `Client.handleErrorResponse` from client.go: classifies an HTTP
error response into a typed error.  `retryAfterHeader` is
`resp.Header.Get("Retry-After")`, which is `""` when the header is
absent. -/
def handleErrorResponse (statusCode : Nat) (body : String)
    (parsed : Option APIError) (retryAfterHeader : String) : GoError :=
  let apiErr := errorPayload body parsed
  if statusCode = 401 then
    .authentication apiErr
  else if statusCode = 429 then
    let retryAfter : Int := if retryAfterHeader ≠ "" then atoi retryAfterHeader else 0
    .rateLimit apiErr retryAfter
  else if statusCode = 402 then
    .insufficientCredits apiErr
  else if statusCode = 404 then
    .notFound apiErr
  else if statusCode = 400 ∨ statusCode = 422 then
    .validation apiErr none
  else
    .sendly apiErr statusCode

/-- What one HTTP round trip of `Client.doRequest` can observe: a
transport-level failure of `http.NewRequestWithContext` /
`HTTPClient.Do` / `io.ReadAll`, or a response.  For a response,
`parsedError` is the oracle outcome of `json.Unmarshal(body, &apiErr)`
and `resultParseOk` the oracle outcome of unmarshalling a success body
into the caller's result type. -/
inductive HTTPOutcome where
  | transportFailure (message : String) (err : String)
  | response (status : Nat) (body : String) (parsedError : Option APIError)
      (retryAfterHeader : String) (resultParseOk : Bool)
deriving DecidableEq, Repr

/-- `Client.doRequest` from client.go, as a function of what the round
trip observed: `none` is a nil error (success).  Marshalling of the
request body is not modelled (the library's own request types always
marshal). -/
def doRequest : HTTPOutcome → Option GoError
  | .transportFailure msg e => some (.network msg (some e))
  | .response status body parsed retryAfterHeader resultParseOk =>
    if status ≥ 400 then
      some (handleErrorResponse status body parsed retryAfterHeader)
    else if resultParseOk then
      none
    else
      some (.network "failed to unmarshal response" (some "json error"))

/-- The retry loop of `Client.request` returns immediately, without
recording `lastErr`, on these four error types. -/
def isNonRetryable : GoError → Bool
  | .authentication _ => true
  | .validation _ _ => true
  | .notFound _ => true
  | .insufficientCredits _ => true
  | _ => false

/-- Nanoseconds the loop body sleeps after recording a retryable
error: `time.After(time.Duration(RetryAfter) * time.Second)` when the
error is a `RateLimitError` with positive `RetryAfter`, else nothing.
The duration conversion wraps in `int64`, and `time.After` of a
non-positive duration fires immediately (`Int.toNat` sends negative
durations to a zero wait). -/
def retryAfterSleep : GoError → Nat
  | .rateLimit _ retryAfter =>
    if retryAfter > 0 then (durationSeconds retryAfter).toNat else 0
  | _ => 0

/-- One HTTP attempt of the retry loop, together with the sleeps the
loop performs around it, in nanoseconds: `waitBefore` is the
exponential backoff before the attempt
(`time.Duration(1 << (idx-1)) * time.Second` for `idx > 0`, nothing
before the first; both the shift and the multiplication wrap in
`int64`, and a non-positive duration waits 0), `waitAfter` the
Retry-After sleep after a retryable rate-limit outcome.  `outcome` is
the attempt's `doRequest` result. -/
structure AttemptRecord where
  idx : Nat
  waitBefore : Nat
  outcome : Option GoError
  waitAfter : Nat
deriving DecidableEq, Repr

instance : Inhabited AttemptRecord := ⟨⟨0, 0, none, 0⟩⟩

/-- The retry loop of `Client.request` (client.go lines 115-160),
assuming the caller's context is never cancelled (the three
`ctx.Done()` branches never fire).  `outcomes i` is what attempt `i`'s
round trip observes; `fuel` is the number of loop iterations still
allowed, so the loop as a whole runs with `fuel = maxRetries + 1`.
Returns the attempts performed and the final error (`none` = nil). -/
def requestLoop (outcomes : Nat → HTTPOutcome) (i : Nat) (fuel : Nat)
    (lastErr : Option GoError) : List AttemptRecord × Option GoError :=
  match fuel with
  | 0 => ([], lastErr)
  | fuel + 1 =>
    let waitBefore := if i = 0 then 0 else (durationSeconds (wrap64 (2 ^ (i - 1)))).toNat
    match doRequest (outcomes i) with
    | none => ([⟨i, waitBefore, none, 0⟩], none)
    | some e =>
      if isNonRetryable e then
        ([⟨i, waitBefore, some e, 0⟩], some e)
      else
        let rest := requestLoop outcomes (i + 1) fuel (some e)
        (⟨i, waitBefore, some e, retryAfterSleep e⟩ :: rest.1, rest.2)

/-- `Client.request` with `MaxRetries = maxRetries` (a Go `int`, so the
loop `for attempt := 0; attempt <= maxRetries` runs
`max 0 (maxRetries+1)` times).  The initial `rateLimiter.Wait(ctx)`
succeeds under the no-cancellation assumption and is not recorded. -/
def clientRequest (maxRetries : Int) (outcomes : Nat → HTTPOutcome) :
    List AttemptRecord × Option GoError :=
  requestLoop outcomes 0 (maxRetries + 1).toNat none

/-! ## Path construction (url.PathEscape and the service methods) -/

/-- UTF-8 encoding of one character (the byte expansion `string → []byte`
performed by Go when a `string` is iterated as bytes). -/
def utf8EncodeChar (c : Char) : List Nat :=
  let v := c.toNat
  if v < 128 then [v]
  else if v < 2048 then [192 ||| (v >>> 6), 128 ||| (v &&& 63)]
  else if v < 65536 then
    [224 ||| (v >>> 12), 128 ||| ((v >>> 6) &&& 63), 128 ||| (v &&& 63)]
  else
    [240 ||| (v >>> 18), 128 ||| ((v >>> 12) &&& 63),
     128 ||| ((v >>> 6) &&& 63), 128 ||| (v &&& 63)]

/-- The UTF-8 bytes of a string. -/
def stringBytes (s : String) : List Nat :=
  s.data.flatMap utf8EncodeChar

/-- `shouldEscape(c, encodePathSegment)` from Go's net/url, negated:
a byte is kept verbatim iff it is alphanumeric, one of `- . _ ~`
(unreserved), or one of `$ & + : = @` (the sub-delims that
`encodePathSegment` leaves alone; `/ ; , ?` are escaped). -/
def pathSegmentKeep (b : Nat) : Bool :=
  decide ((97 ≤ b ∧ b ≤ 122) ∨ (65 ≤ b ∧ b ≤ 90) ∨ (48 ≤ b ∧ b ≤ 57) ∨
    b ∈ [45, 46, 95, 126, 36, 38, 43, 58, 61, 64])

/-- Uppercase hexadecimal digit, as Go's escaping uses. -/
def upperHexDigit (n : Nat) : Char :=
  if n < 10 then Char.ofNat (48 + n) else Char.ofNat (55 + n)

/-- `%XX` escape of one byte. -/
def escapeByte (b : Nat) : List Char :=
  ['%', upperHexDigit (b / 16), upperHexDigit (b % 16)]

/-- `url.PathEscape` from net/url: escapes the string so it can be
safely placed inside a URL path segment. -/
def pathEscape (s : String) : String :=
  ⟨(stringBytes s).flatMap fun b =>
    if pathSegmentKeep b then [Char.ofNat b] else escapeByte b⟩

/-- The executor invocation a service method hands to `Client.request`:
HTTP method, path, and whether a JSON body is attached. -/
structure CallSpec where
  method : String
  path : String
  hasBody : Bool
deriving DecidableEq, Repr

/-- A `ValidationError` built by local input validation:
`&ValidationError{APIError: APIError{Message: msg}}` (zero `Code`,
nil wrapped error). -/
def validationErr (msg : String) : GoError :=
  .validation ⟨"", msg⟩ none

/-- `SendMessageRequest` from types.go (`To`, `Text` required,
`MessageType` optional). -/
structure SendMessageRequest where
  to_ : String
  text : String
  messageType : String
deriving DecidableEq, Repr

/-- `ScheduleMessageRequest` from types.go. -/
structure ScheduleMessageRequest where
  to_ : String
  text : String
  scheduledAt : String
  from_ : String
  messageType : String
deriving DecidableEq, Repr

/-- `BatchMessageItem` from types.go. -/
structure BatchMessageItem where
  to_ : String
  text : String
deriving DecidableEq, Repr

/-- `SendBatchRequest` from types.go. -/
structure SendBatchRequest where
  messages : List BatchMessageItem
  from_ : String
  messageType : String
deriving DecidableEq, Repr

/-- `CreateAPIKeyRequest` from account_service.go. -/
structure CreateAPIKeyRequest where
  name : String
  expiresAt : Option String
deriving DecidableEq, Repr

/-- `MessagesService.Send`: the local validation and the executor call
it delegates to.  `Except.error` is an error returned before any
network activity; `Except.ok` is the call handed to the executor. -/
def MessagesService.Send (req : Option SendMessageRequest) : Except GoError CallSpec :=
  match req with
  | none => .error (validationErr "request is required")
  | some req =>
    if req.to_ = "" then .error (validationErr "to is required")
    else if req.text = "" then .error (validationErr "text is required")
    else .ok ⟨"POST", "/messages", true⟩

/-- `MessagesService.Get`. -/
def MessagesService.Get (id : String) : Except GoError CallSpec :=
  if id = "" then .error (validationErr "message ID is required")
  else .ok ⟨"GET", "/messages/" ++ pathEscape id, false⟩

/-- `MessagesService.Schedule`. -/
def MessagesService.Schedule (req : Option ScheduleMessageRequest) : Except GoError CallSpec :=
  match req with
  | none => .error (validationErr "request is required")
  | some req =>
    if req.to_ = "" then .error (validationErr "to is required")
    else if req.text = "" then .error (validationErr "text is required")
    else if req.scheduledAt = "" then .error (validationErr "scheduledAt is required")
    else .ok ⟨"POST", "/messages/schedule", true⟩

/-- `MessagesService.GetScheduled`. -/
def MessagesService.GetScheduled (id : String) : Except GoError CallSpec :=
  if id = "" then .error (validationErr "scheduled message ID is required")
  else .ok ⟨"GET", "/messages/scheduled/" ++ pathEscape id, false⟩

/-- `MessagesService.CancelScheduled`. -/
def MessagesService.CancelScheduled (id : String) : Except GoError CallSpec :=
  if id = "" then .error (validationErr "scheduled message ID is required")
  else .ok ⟨"DELETE", "/messages/scheduled/" ++ pathEscape id, false⟩

/-- The per-item loop of `MessagesService.SendBatch`
(`for i, msg := range req.Messages`): the first failing check wins. -/
def validateBatchMessages : List BatchMessageItem → Nat → Option GoError
  | [], _ => none
  | m :: ms, i =>
    if m.to_ = "" then
      some (validationErr ("to is required for message at index " ++ toString i))
    else if m.text = "" then
      some (validationErr ("text is required for message at index " ++ toString i))
    else validateBatchMessages ms (i + 1)

/-- `MessagesService.SendBatch`. -/
def MessagesService.SendBatch (req : Option SendBatchRequest) : Except GoError CallSpec :=
  match req with
  | none => .error (validationErr "request is required")
  | some req =>
    if req.messages.length = 0 then .error (validationErr "messages are required")
    else
      match validateBatchMessages req.messages 0 with
      | some e => .error e
      | none => .ok ⟨"POST", "/messages/batch", true⟩

/-- `MessagesService.GetBatch`. -/
def MessagesService.GetBatch (batchID : String) : Except GoError CallSpec :=
  if batchID = "" then .error (validationErr "batch ID is required")
  else .ok ⟨"GET", "/messages/batch/" ++ pathEscape batchID, false⟩

/-- `AccountService.GetAPIKey` from account_service.go: note that the
source performs no local validation and concatenates `keyID` into the
path without `url.PathEscape`. -/
def AccountService.GetAPIKey (keyID : String) : Except GoError CallSpec :=
  .ok ⟨"GET", "/keys/" ++ keyID, false⟩

/-- `AccountService.GetAPIKeyUsage`: likewise no validation, no
escaping. -/
def AccountService.GetAPIKeyUsage (keyID : String) : Except GoError CallSpec :=
  .ok ⟨"GET", "/keys/" ++ keyID ++ "/usage", false⟩

/-- `AccountService.CreateAPIKeyWithOptions`. -/
def AccountService.CreateAPIKeyWithOptions (req : CreateAPIKeyRequest) : Except GoError CallSpec :=
  if req.name = "" then .error (validationErr "API key name is required")
  else .ok ⟨"POST", "/account/keys", true⟩

/-- `AccountService.RevokeAPIKey`. -/
def AccountService.RevokeAPIKey (keyID : String) : Except GoError CallSpec :=
  if keyID = "" then .error (validationErr "API key ID is required")
  else .ok ⟨"DELETE", "/account/keys/" ++ keyID, false⟩

/-! ## Client construction (NewClient and the functional options) -/

/-- Go `time.Second` in nanoseconds (`time.Duration` is an int64 count
of nanoseconds). -/
def second : Int := 1000000000

/-- `DefaultBaseURL` from client.go. -/
def DefaultBaseURL : String := "https://sendly.live/api/v1"

/-- `DefaultTimeout` from client.go: `30 * time.Second`. -/
def DefaultTimeout : Int := 30 * second

/-- The fields of `http.Client` relevant here: its timeout, and an
opaque tag standing for the rest of the struct (transport etc.), so
that distinct custom clients stay distinguishable. -/
structure GoHTTPClient where
  timeout : Int
  transport : Nat
deriving DecidableEq, Repr

/-- The configuration fields of `Client` from client.go.  The
`Messages` service pointer and the private `rateLimiter` carry no
configuration of their own and are omitted. -/
structure Client where
  baseURL : String
  apiKey : String
  httpClient : GoHTTPClient
  maxRetries : Int
  timeout : Int
  debug : Bool
deriving DecidableEq, Repr

/-- `ClientOption`: a function that mutates the client in place. -/
abbrev ClientOption := Client → Client

/-- `WithBaseURL`. -/
def WithBaseURL (baseURL : String) : ClientOption :=
  fun c => { c with baseURL := baseURL }

/-- `WithTimeout`: sets both `c.Timeout` and `c.HTTPClient.Timeout`. -/
def WithTimeout (timeout : Int) : ClientOption :=
  fun c => { c with timeout := timeout,
                    httpClient := { c.httpClient with timeout := timeout } }

/-- `WithHTTPClient`. -/
def WithHTTPClient (httpClient : GoHTTPClient) : ClientOption :=
  fun c => { c with httpClient := httpClient }

/-- `WithMaxRetries`. -/
def WithMaxRetries (maxRetries : Int) : ClientOption :=
  fun c => { c with maxRetries := maxRetries }

/-- `WithDebug`. -/
def WithDebug (debug : Bool) : ClientOption :=
  fun c => { c with debug := debug }

/-- `NewClient` from client.go: the defaults, then each option applied
in order.  The default `http.Client` is `&http.Client{Timeout:
DefaultTimeout}` (zero transport, tag 0). -/
def NewClient (apiKey : String) (opts : List ClientOption) : Client :=
  opts.foldl (fun c opt => opt c)
    { baseURL := DefaultBaseURL
      apiKey := apiKey
      httpClient := ⟨DefaultTimeout, 0⟩
      maxRetries := 3
      timeout := DefaultTimeout
      debug := false }

/-! ## Webhook signatures (crypto/hmac + crypto/sha256, webhooks.go) -/

/-- Truncation to a 32-bit word. -/
def w32 (n : Nat) : Nat := n % 4294967296

/-- 32-bit right rotation (operands are 32-bit words). -/
def rotr32 (k x : Nat) : Nat := w32 ((x >>> k) ||| (x <<< (32 - k)))

/-- SHA-256 Σ0. -/
def bigSigma0 (x : Nat) : Nat := rotr32 2 x ^^^ rotr32 13 x ^^^ rotr32 22 x

/-- SHA-256 Σ1. -/
def bigSigma1 (x : Nat) : Nat := rotr32 6 x ^^^ rotr32 11 x ^^^ rotr32 25 x

/-- SHA-256 σ0. -/
def smallSigma0 (x : Nat) : Nat := rotr32 7 x ^^^ rotr32 18 x ^^^ (x >>> 3)

/-- SHA-256 σ1. -/
def smallSigma1 (x : Nat) : Nat := rotr32 17 x ^^^ rotr32 19 x ^^^ (x >>> 10)

/-- SHA-256 Ch(x,y,z) = (x ∧ y) ⊕ (¬x ∧ z) on 32-bit words. -/
def chF (x y z : Nat) : Nat := (x &&& y) ^^^ ((x ^^^ 4294967295) &&& z)

/-- SHA-256 Maj(x,y,z). -/
def majF (x y z : Nat) : Nat := (x &&& y) ^^^ (x &&& z) ^^^ (y &&& z)

/-- The 64 SHA-256 round constants. -/
def sha256K : List Nat :=
  [1116352408, 1899447441, 3049323471, 3921009573, 961987163,
   1508970993, 2453635748, 2870763221, 3624381080, 310598401,
   607225278, 1426881987, 1925078388, 2162078206, 2614888103,
   3248222580, 3835390401, 4022224774, 264347078, 604807628,
   770255983, 1249150122, 1555081692, 1996064986, 2554220882,
   2821834349, 2952996808, 3210313671, 3336571891, 3584528711,
   113926993, 338241895, 666307205, 773529912, 1294757372,
   1396182291, 1695183700, 1986661051, 2177026350, 2456956037,
   2730485921, 2820302411, 3259730800, 3345764771, 3516065817,
   3600352804, 4094571909, 275423344, 430227734, 506948616,
   659060556, 883997877, 958139571, 1322822218, 1537002063,
   1747873779, 1955562222, 2024104815, 2227730452, 2361852424,
   2428436474, 2756734187, 3204031479, 3329325298]

/-- The SHA-256 initial hash state. -/
def sha256H0 : List Nat :=
  [1779033703, 3144134277, 1013904242, 2773480762,
   1359893119, 2600822924, 528734635, 1541459225]

/-- SHA-256 padding of a byte message: `0x80`, zeros to 56 mod 64, then
the bit length as 8 big-endian bytes. -/
def sha256Pad (msg : List Nat) : List Nat :=
  let zeros := (120 - ((msg.length + 1) % 64)) % 64
  msg ++ [128] ++ List.replicate zeros 0 ++
    (List.range 8).map fun i => ((8 * msg.length) >>> (8 * (7 - i))) % 256

/-- Split a byte list into 64-byte blocks. -/
def chunks64 : List Nat → List (List Nat)
  | [] => []
  | b :: bs => (b :: bs).take 64 :: chunks64 ((b :: bs).drop 64)
termination_by l => l.length
decreasing_by simp [List.length_drop]; omega

/-- The 16 big-endian 32-bit words of one 64-byte block. -/
def blockWords (block : List Nat) : List Nat :=
  (List.range 16).map fun j =>
    block.getD (4 * j) 0 * 16777216 + block.getD (4 * j + 1) 0 * 65536 +
      block.getD (4 * j + 2) 0 * 256 + block.getD (4 * j + 3) 0

/-- Extend the 16 message words to the 64-entry message schedule. -/
def extendSchedule (w16 : List Nat) : List Nat :=
  (List.range 48).foldl
    (fun w _ =>
      let n := w.length
      w ++ [w32 (smallSigma1 (w.getD (n - 2) 0) + w.getD (n - 7) 0 +
        smallSigma0 (w.getD (n - 15) 0) + w.getD (n - 16) 0)])
    w16

/-- The 64 SHA-256 compression rounds on the state `[a,b,c,d,e,f,g,h]`. -/
def compressRounds (w : List Nat) (state : List Nat) : List Nat :=
  (List.range 64).foldl
    (fun s t =>
      let a := s.getD 0 0
      let b := s.getD 1 0
      let c := s.getD 2 0
      let d := s.getD 3 0
      let e := s.getD 4 0
      let f := s.getD 5 0
      let g := s.getD 6 0
      let h := s.getD 7 0
      let t1 := w32 (h + bigSigma1 e + chF e f g + sha256K.getD t 0 + w.getD t 0)
      let t2 := w32 (bigSigma0 a + majF a b c)
      [w32 (t1 + t2), a, b, c, w32 (d + t1), e, f, g])
    state

/-- Process one 64-byte block into the running hash state. -/
def sha256Block (h : List Nat) (block : List Nat) : List Nat :=
  List.zipWith (fun x y => w32 (x + y)) h
    (compressRounds (extendSchedule (blockWords block)) h)

/-- `sha256.Sum256`: the 32-byte SHA-256 digest of a byte message. -/
def sha256Bytes (msg : List Nat) : List Nat :=
  ((chunks64 (sha256Pad msg)).foldl sha256Block sha256H0).flatMap fun v =>
    [(v >>> 24) % 256, (v >>> 16) % 256, (v >>> 8) % 256, v % 256]

/-- `hmac.New(sha256.New, key)` followed by `Write(msg)` and `Sum(nil)`:
HMAC-SHA256 with a 64-byte block size. -/
def hmacSha256 (key msg : List Nat) : List Nat :=
  let k0 := if key.length > 64 then sha256Bytes key else key
  let k := k0 ++ List.replicate (64 - k0.length) 0
  sha256Bytes ((k.map fun b => b ^^^ 92) ++
    sha256Bytes ((k.map fun b => b ^^^ 54) ++ msg))

/-- Lowercase hexadecimal digit, as `hex.EncodeToString` uses. -/
def lowerHexDigit (n : Nat) : Char :=
  if n < 10 then Char.ofNat (48 + n) else Char.ofNat (87 + n)

/-- `hex.EncodeToString`. -/
def hexEncode (bs : List Nat) : String :=
  ⟨bs.flatMap fun b => [lowerHexDigit (b / 16), lowerHexDigit (b % 16)]⟩

/-- `Webhooks.GenerateSignature` from webhooks.go. -/
def Webhooks.GenerateSignature (payload secret : String) : String :=
  "sha256=" ++ hexEncode (hmacSha256 (stringBytes secret) (stringBytes payload))

/-- `Webhooks.VerifySignature` from webhooks.go: empty inputs are
rejected, then the expected signature is recomputed; `hmac.Equal` of two
equal-length byte strings is plain equality. -/
def Webhooks.VerifySignature (payload signature secret : String) : Bool :=
  if payload = "" ∨ signature = "" ∨ secret = "" then false
  else
    let expected :=
      "sha256=" ++ hexEncode (hmacSha256 (stringBytes secret) (stringBytes payload))
    if signature.length ≠ expected.length then false
    else signature == expected

/-! ## Theorems -/

/-- C1: for every HTTP response with status ≥ 400, `handleErrorResponse`
returns exactly one typed error determined by the status code: 401 ↦
Authentication, 429 ↦ RateLimit (with the parsed Retry-After header,
0 when absent), 402 ↦ InsufficientCredits, 404 ↦ NotFound, 400/422 ↦
Validation, and every other status ≥ 400 ↦ the generic `SendlyError`
carrying that status.  Classification is total — `handleErrorResponse`
is a total function of status, body, parse outcome and header — and
when the body fails to parse as the error payload, its raw text becomes
the message. -/
theorem claim_C1_error_classification (status : Nat) (body : String)
    (parsed : Option APIError) (ra : String) :
    (status = 401 →
      handleErrorResponse status body parsed ra = .authentication (errorPayload body parsed)) ∧
    (status = 429 →
      handleErrorResponse status body parsed ra =
        .rateLimit (errorPayload body parsed) (if ra ≠ "" then atoi ra else 0)) ∧
    (status = 402 →
      handleErrorResponse status body parsed ra = .insufficientCredits (errorPayload body parsed)) ∧
    (status = 404 →
      handleErrorResponse status body parsed ra = .notFound (errorPayload body parsed)) ∧
    (status = 400 ∨ status = 422 →
      handleErrorResponse status body parsed ra = .validation (errorPayload body parsed) none) ∧
    (400 ≤ status → status ∉ ([401, 429, 402, 404, 400, 422] : List Nat) →
      handleErrorResponse status body parsed ra = .sendly (errorPayload body parsed) status) ∧
    (parsed = none → errorPayload body parsed = ⟨"UNKNOWN_ERROR", body⟩) := by
  refine ⟨?_, ?_, ?_, ?_, ?_, ?_, ?_⟩
  · intro h; subst h; rfl
  · intro h; subst h; rfl
  · intro h; subst h; rfl
  · intro h; subst h; rfl
  · rintro (h | h) <;> subst h <;> rfl
  · intro h400 hmem
    simp only [List.mem_cons, List.mem_singleton, not_or] at hmem
    obtain ⟨h1, h2, h3, h4, h5, h6⟩ := hmem
    simp [handleErrorResponse, h1, h2, h3, h4, h5, h6]
  · intro h; subst h; rfl

/-- Witness for C1 at status 503 with an unparseable body. -/
theorem claim_C1_witness :
    handleErrorResponse 503 "oops" none "" = .sendly ⟨"UNKNOWN_ERROR", "oops"⟩ 503 :=
  (claim_C1_error_classification 503 "oops" none "").2.2.2.2.2.1 (by decide) (by decide)

/-- C9: each error-variant predicate returns `true` exactly when its
argument is that exact variant, and hence `false` on the nil interface,
on every other variant, and on unrelated errors. -/
theorem claim_C9_predicates_exact (e : GoErrorValue) :
    (IsAuthenticationError e = true ↔ ∃ a, e = some (.authentication a)) ∧
    (IsRateLimitError e = true ↔ ∃ a r, e = some (.rateLimit a r)) ∧
    (IsInsufficientCreditsError e = true ↔ ∃ a, e = some (.insufficientCredits a)) ∧
    (IsValidationError e = true ↔ ∃ a w, e = some (.validation a w)) ∧
    (IsNotFoundError e = true ↔ ∃ a, e = some (.notFound a)) ∧
    (IsNetworkError e = true ↔ ∃ m w, e = some (.network m w)) := by
  rcases e with _ | e
  · simp [IsAuthenticationError, IsRateLimitError, IsInsufficientCreditsError,
      IsValidationError, IsNotFoundError, IsNetworkError]
  · cases e <;>
      simp [IsAuthenticationError, IsRateLimitError, IsInsufficientCreditsError,
        IsValidationError, IsNotFoundError, IsNetworkError]

/-- C8: every recognized option round-trips (reading back the
configuration field yields the value passed), and a client built with
no options has the documented defaults: production base URL, 30-second
timeout, 3 retries. -/
theorem claim_C8_option_roundtrip_and_defaults :
    (∀ k u, (NewClient k [WithBaseURL u]).baseURL = u) ∧
    (∀ k t, (NewClient k [WithTimeout t]).timeout = t ∧
      (NewClient k [WithTimeout t]).httpClient.timeout = t) ∧
    (∀ k n, (NewClient k [WithMaxRetries n]).maxRetries = n) ∧
    (∀ k h, (NewClient k [WithHTTPClient h]).httpClient = h) ∧
    (∀ k b, (NewClient k [WithDebug b]).debug = b) ∧
    (∀ k, (NewClient k []).baseURL = DefaultBaseURL ∧
      (NewClient k []).timeout = DefaultTimeout ∧
      (NewClient k []).maxRetries = 3 ∧
      (NewClient k []).apiKey = k ∧
      (NewClient k []).debug = false) ∧
    DefaultBaseURL = "https://sendly.live/api/v1" ∧
    DefaultTimeout = 30 * second := by
  refine ⟨fun k u => rfl, fun k t => ⟨rfl, rfl⟩, fun k n => rfl, fun k h => rfl,
    fun k b => rfl, fun k => ⟨rfl, rfl, rfl, rfl, rfl⟩, rfl, rfl⟩

/-- When every attempt's outcome classifies to a retryable error
(`err i` on attempt `i`), the loop consumes all its fuel and records
one attempt per unit of fuel, sleeping `retryAfterSleep` after each. -/
lemma requestLoop_retryable_records (outcomes : Nat → HTTPOutcome) (err : Nat → GoError)
    (h1 : ∀ i, doRequest (outcomes i) = some (err i))
    (h2 : ∀ i, isNonRetryable (err i) = false) :
    ∀ fuel i lastErr,
      (requestLoop outcomes i fuel lastErr).1 =
        (List.range fuel).map fun k =>
          ⟨i + k,
           if i + k = 0 then 0 else (durationSeconds (wrap64 (2 ^ (i + k - 1)))).toNat,
           some (err (i + k)), retryAfterSleep (err (i + k))⟩ := by
  intro fuel
  induction fuel with
  | zero => intro i lastErr; rfl
  | succ fuel ih =>
    intro i lastErr
    rw [requestLoop, h1 i]
    simp only [h2 i, if_false]
    rw [List.range_succ_eq_map, List.map_cons, List.map_map]
    refine congrArg₂ _ (by simp) ?_
    rw [ih (i + 1) (some (err i))]
    refine List.map_congr_left fun k _ => ?_
    have : i + 1 + k = i + (k + 1) := by omega
    simp [Function.comp, this]

/-- When every attempt's outcome classifies to a retryable error, the
loop finally surfaces the error of its last attempt. -/
lemma requestLoop_retryable_result (outcomes : Nat → HTTPOutcome) (err : Nat → GoError)
    (h1 : ∀ i, doRequest (outcomes i) = some (err i))
    (h2 : ∀ i, isNonRetryable (err i) = false) :
    ∀ fuel i lastErr,
      (requestLoop outcomes i (fuel + 1) lastErr).2 = some (err (i + fuel)) := by
  intro fuel
  induction fuel with
  | zero =>
    intro i lastErr
    rw [requestLoop, h1 i]
    simp [h2 i, requestLoop]
  | succ fuel ih =>
    intro i lastErr
    rw [requestLoop, h1 i]
    simp only [h2 i]
    rw [if_neg (by simp)]
    simp only [ih (i + 1) (some (err i))]
    congr 2
    omega

/-- C2: with max retries `N ≥ 0` and every attempt answered by a
response with status ≥ 500, `Client.request` performs exactly `N + 1`
attempts and returns the last recorded retryable error: the generic
`SendlyError` carrying the status code of the final attempt. -/
theorem claim_C2_exhausts_budget_on_5xx (n : Nat) (st : Nat → Nat)
    (body : Nat → String) (parsed : Nat → Option APIError) (ra : Nat → String)
    (h : ∀ i, 500 ≤ st i) :
    (clientRequest n (fun i => .response (st i) (body i) (parsed i) (ra i) true)).1.length
        = n + 1 ∧
    (clientRequest n (fun i => .response (st i) (body i) (parsed i) (ra i) true)).2
        = some (.sendly (errorPayload (body n) (parsed n)) (st n)) := by
  have herr : ∀ i, doRequest (HTTPOutcome.response (st i) (body i) (parsed i) (ra i) true)
      = some (.sendly (errorPayload (body i) (parsed i)) (st i)) := by
    intro i
    have h5 := h i
    have e1 : st i ≠ 401 := by omega
    have e2 : st i ≠ 429 := by omega
    have e3 : st i ≠ 402 := by omega
    have e4 : st i ≠ 404 := by omega
    have e5 : st i ≠ 400 := by omega
    have e6 : st i ≠ 422 := by omega
    have e7 : 400 ≤ st i := by omega
    simp [doRequest, handleErrorResponse, e1, e2, e3, e4, e5, e6, e7]
  have hnr : ∀ i, isNonRetryable (GoError.sendly (errorPayload (body i) (parsed i)) (st i))
      = false := fun i => rfl
  have hfuel : ((n : Int) + 1).toNat = n + 1 := by omega
  constructor
  · rw [clientRequest, hfuel,
      requestLoop_retryable_records _ _ herr hnr (n + 1) 0 none]
    simp
  · rw [clientRequest, hfuel,
      requestLoop_retryable_result _ _ herr hnr n 0 none]
    simp

/-- Witness for C2 with `N = 2` and all attempts answered 502. -/
theorem claim_C2_witness :
    (clientRequest 2 (fun _ => .response 502 "bad gateway" none "" true)).1.length = 3 ∧
    (clientRequest 2 (fun _ => .response 502 "bad gateway" none "" true)).2
      = some (.sendly ⟨"UNKNOWN_ERROR", "bad gateway"⟩ 502) := by
  have := claim_C2_exhausts_budget_on_5xx 2 (fun _ => 502) (fun _ => "bad gateway")
    (fun _ => none) (fun _ => "") (fun _ => (by decide : (500 : Nat) ≤ 502))
  simpa [errorPayload] using this

/-- C3: a non-retryable error response (status 401, 402, 404, 400 or
422) on the first attempt makes `Client.request` stop after exactly one
attempt and return that typed error, whatever the configured retry
budget `n` is. -/
theorem claim_C3_nonretryable_single_attempt (n : Nat) (st : Nat) (body : String)
    (parsed : Option APIError) (ra : String) (resOk : Bool)
    (outcomes : Nat → HTTPOutcome)
    (h0 : outcomes 0 = .response st body parsed ra resOk)
    (hst : st = 401 ∨ st = 402 ∨ st = 404 ∨ st = 400 ∨ st = 422) :
    (clientRequest n outcomes).1.length = 1 ∧
    (clientRequest n outcomes).2 = some (handleErrorResponse st body parsed ra) ∧
    isNonRetryable (handleErrorResponse st body parsed ra) = true := by
  have hnr : isNonRetryable (handleErrorResponse st body parsed ra) = true := by
    rcases hst with h | h | h | h | h <;> subst h <;> rfl
  have hdo : doRequest (outcomes 0) = some (handleErrorResponse st body parsed ra) := by
    rw [h0]
    have : 400 ≤ st := by omega
    simp [doRequest, this]
  have hfuel : ((n : Int) + 1).toNat = n + 1 := by omega
  rw [clientRequest, hfuel, requestLoop, hdo]
  simp [hnr]

/-- Witness for C3: a 404 on the first attempt with retry budget 5. -/
theorem claim_C3_witness :
    (clientRequest 5 (fun _ => .response 404 "{}" (some ⟨"NOT_FOUND", "no such message"⟩) "" true)).1.length = 1 ∧
    (clientRequest 5 (fun _ => .response 404 "{}" (some ⟨"NOT_FOUND", "no such message"⟩) "" true)).2
      = some (handleErrorResponse 404 "{}" (some ⟨"NOT_FOUND", "no such message"⟩) "") ∧
    isNonRetryable (handleErrorResponse 404 "{}" (some ⟨"NOT_FOUND", "no such message"⟩) "") = true :=
  claim_C3_nonretryable_single_attempt 5 404 "{}" (some ⟨"NOT_FOUND", "no such message"⟩) "" true
    _ rfl (by decide)

/-- `getD` of a function mapped over `List.range`. -/
lemma getD_map_range {α : Type} (f : Nat → α) (n k : Nat) (hk : k < n) (d : α) :
    ((List.range n).map f).getD k d = f k := by
  rw [List.getD_eq_getElem _ _ (by simpa using hk)]
  simp

/-- C4 as stated is false of the code: the Retry-After sleep is
computed as `time.Duration(RetryAfter) * time.Second`, an `int64`
multiplication that wraps.  For the header `"10000000000"` (which
`strconv.Atoi` parses as 10^10), the product 10^19 ns overflows int64
to a negative duration, `time.After` fires immediately, and between
the two attempts the executor waits only the 1-second backoff
(10^9 ns) — far less than the claimed 10^10 seconds. -/
theorem claim_C4_counterexample :
    atoi "10000000000" = 10000000000 ∧
    durationSeconds 10000000000 = -8446744073709551616 ∧
    ((clientRequest 1 (fun _ => .response 429 "slow" none "10000000000" true)).1.getD 0
        default).waitAfter
      + ((clientRequest 1 (fun _ => .response 429 "slow" none "10000000000" true)).1.getD 1
        default).waitBefore = 1000000000 ∧
    (1000000000 : Int) < 10000000000 * 1000000000 := by decide

/-- C4 amended: when every attempt is answered 429, at least one retry
is configured, and each Retry-After value is at most 9223372036 (the
largest integer whose conversion to a nanosecond `time.Duration` does
not overflow int64), the executor sleeps at least the response's
Retry-After seconds (Retry-After nanoseconds times 10^9; the value is
the clamped integer value of the header, 0 when absent) between an
attempt and the next one — the Retry-After sleep directly after the
attempt plus the backoff sleep directly before the next — and, all
attempts failing, the final error is the RateLimit variant carrying
the last-seen Retry-After value.  For larger Retry-After values the
duration wraps negative and the executor does not wait
(`claim_C4_counterexample`). -/
theorem claim_C4_rate_limit_retry_after (n : Nat) (_hn : 1 ≤ n)
    (body : Nat → String) (parsed : Nat → Option APIError) (ra : Nat → String)
    (hra : ∀ i, (if ra i ≠ "" then atoi (ra i) else 0) ≤ 9223372036) :
    (clientRequest n (fun i => .response 429 (body i) (parsed i) (ra i) true)).1.length = n + 1 ∧
    (∀ i, i < n →
      (if ra i ≠ "" then atoi (ra i) else 0) * 1000000000 ≤
        ((((clientRequest n (fun i => .response 429 (body i) (parsed i) (ra i) true)).1.getD i default).waitAfter +
          ((clientRequest n (fun i => .response 429 (body i) (parsed i) (ra i) true)).1.getD (i + 1) default).waitBefore : Nat) : Int)) ∧
    (clientRequest n (fun i => .response 429 (body i) (parsed i) (ra i) true)).2 =
      some (.rateLimit (errorPayload (body n) (parsed n)) (if ra n ≠ "" then atoi (ra n) else 0)) := by
  have herr : ∀ i, doRequest (HTTPOutcome.response 429 (body i) (parsed i) (ra i) true)
      = some (.rateLimit (errorPayload (body i) (parsed i))
          (if ra i ≠ "" then atoi (ra i) else 0)) := by
    intro i
    simp [doRequest, handleErrorResponse]
  have hnr : ∀ i, isNonRetryable (GoError.rateLimit (errorPayload (body i) (parsed i))
      (if ra i ≠ "" then atoi (ra i) else 0)) = false := fun i => rfl
  have hfuel : ((n : Int) + 1).toNat = n + 1 := by omega
  have hrec := requestLoop_retryable_records
    (fun i => HTTPOutcome.response 429 (body i) (parsed i) (ra i) true) _ herr hnr (n + 1) 0 none
  refine ⟨?_, ?_, ?_⟩
  · rw [clientRequest, hfuel, hrec]; simp
  · intro i hi
    rw [clientRequest, hfuel, hrec,
      getD_map_range _ _ i (by omega), getD_map_range _ _ (i + 1) (by omega)]
    simp only [Nat.zero_add]
    have h1 : i + 1 ≠ 0 := by omega
    simp only [h1, if_false, retryAfterSleep]
    have hub := hra i
    rcases le_or_lt (if ra i ≠ "" then atoi (ra i) else 0) 0 with hle | hpos
    · have : ¬ (0 : Int) < (if ra i ≠ "" then atoi (ra i) else 0) := by omega
      rw [if_neg this]
      omega
    · rw [if_pos hpos]
      have hwrap : durationSeconds (if ra i ≠ "" then atoi (ra i) else 0)
          = (if ra i ≠ "" then atoi (ra i) else 0) * 1000000000 := by
        simp only [durationSeconds, wrap64]
        omega
      rw [hwrap]
      omega
  · rw [clientRequest, hfuel, requestLoop_retryable_result _ _ herr hnr n 0 none]
    simp

/-- Witness for the amended C4: one retry, every attempt 429 with
Retry-After 7. -/
theorem claim_C4_witness :
    (clientRequest 1 (fun _ => .response 429 "slow" none "7" true)).1.length = 2 ∧
    ((7 * 1000000000 : Int) ≤
      ((((clientRequest 1 (fun _ => .response 429 "slow" none "7" true)).1.getD 0 default).waitAfter +
        ((clientRequest 1 (fun _ => .response 429 "slow" none "7" true)).1.getD 1 default).waitBefore : Nat) : Int)) ∧
    (clientRequest 1 (fun _ => .response 429 "slow" none "7" true)).2 =
      some (.rateLimit ⟨"UNKNOWN_ERROR", "slow"⟩ 7) := by
  have h := claim_C4_rate_limit_retry_after 1 (by decide) (fun _ => "slow")
    (fun _ => none) (fun _ => "7")
    (fun _ => (by decide : (if ("7" : String) ≠ "" then atoi "7" else 0) ≤ 9223372036))
  have e7 : (if ("7" : String) ≠ "" then atoi "7" else 0) = (7 : Int) := by decide
  rw [e7] at h
  exact ⟨by simpa using h.1, by simpa using h.2.1 0 (by decide),
    by simpa [errorPayload] using h.2.2⟩

/-- A code point of a `Char` is below 0x110000. -/
lemma char_toNat_lt (c : Char) : c.toNat < 1114112 := by
  have h : c.val.toNat < 55296 ∨ (57344 ≤ c.val.toNat ∧ c.val.toNat < 1114112) := c.valid
  have : c.toNat = c.val.toNat := rfl
  omega

/-- Bitwise-or of two bytes is a byte. -/
lemma byte_or_lt {a x : Nat} (ha : a < 256) (hx : x < 256) : a ||| x < 256 := by
  have h : a ||| x < 2 ^ 8 :=
    Nat.or_lt_two_pow (by norm_num [ha]) (by norm_num [hx])
  norm_num at h
  exact h

/-- Every byte produced by the UTF-8 encoder is below 256. -/
lemma utf8EncodeChar_lt (c : Char) : ∀ b ∈ utf8EncodeChar c, b < 256 := by
  have hv : c.toNat < 1114112 := char_toNat_lt c
  intro b hb
  simp only [utf8EncodeChar] at hb
  split_ifs at hb with h1 h2 h3
  · simp only [List.mem_singleton] at hb
    omega
  · simp only [List.mem_cons, List.mem_singleton, List.not_mem_nil, or_false] at hb
    rcases hb with hb | hb <;> subst hb
    · exact byte_or_lt (by norm_num)
        (by rw [Nat.shiftRight_eq_div_pow]; norm_num; omega)
    · exact byte_or_lt (by norm_num)
        (lt_of_le_of_lt Nat.and_le_right (by norm_num))
  · simp only [List.mem_cons, List.mem_singleton, List.not_mem_nil, or_false] at hb
    rcases hb with hb | hb | hb <;> subst hb
    · exact byte_or_lt (by norm_num)
        (by rw [Nat.shiftRight_eq_div_pow]; norm_num; omega)
    · exact byte_or_lt (by norm_num)
        (lt_of_le_of_lt Nat.and_le_right (by norm_num))
    · exact byte_or_lt (by norm_num)
        (lt_of_le_of_lt Nat.and_le_right (by norm_num))
  · simp only [List.mem_cons, List.mem_singleton, List.not_mem_nil, or_false] at hb
    rcases hb with hb | hb | hb | hb <;> subst hb
    · exact byte_or_lt (by norm_num)
        (by rw [Nat.shiftRight_eq_div_pow]; norm_num; omega)
    · exact byte_or_lt (by norm_num)
        (lt_of_le_of_lt Nat.and_le_right (by norm_num))
    · exact byte_or_lt (by norm_num)
        (lt_of_le_of_lt Nat.and_le_right (by norm_num))
    · exact byte_or_lt (by norm_num)
        (lt_of_le_of_lt Nat.and_le_right (by norm_num))

/-- Every byte of a string's UTF-8 form is below 256. -/
lemma stringBytes_lt (s : String) : ∀ b ∈ stringBytes s, b < 256 := by
  intro b hb
  simp only [stringBytes, List.mem_flatMap] at hb
  obtain ⟨c, _, hc⟩ := hb
  exact utf8EncodeChar_lt c b hc

/-- Equality of `Except` values is decidable componentwise. -/
instance {ε α : Type} [DecidableEq ε] [DecidableEq α] :
    DecidableEq (Except ε α) := fun x y =>
  match x, y with
  | .ok a, .ok b =>
    if h : a = b then isTrue (by rw [h]) else isFalse (by simp [h])
  | .error a, .error b =>
    if h : a = b then isTrue (by rw [h]) else isFalse (by simp [h])
  | .ok _, .error _ => isFalse (by simp)
  | .error _, .ok _ => isFalse (by simp)

/-- A byte kept verbatim by path-segment escaping never renders as '/'
(the slash byte 47 is escaped). -/
lemma keep_char_ne_slash :
    ∀ b, b < 256 → pathSegmentKeep b = true → Char.ofNat b ≠ '/' := by
  set_option maxRecDepth 2048 in decide

/-- No character of a `%XX` escape is '/'. -/
lemma escape_char_ne_slash :
    ∀ b, b < 256 → ∀ ch ∈ escapeByte b, ch ≠ '/' := by
  set_option maxRecDepth 2048 in decide

/-- `url.PathEscape` never leaves a '/' in its output: the escaped
identifier occupies a single path segment. -/
lemma pathEscape_no_slash (s : String) : (pathEscape s).data.count '/' = 0 := by
  rw [List.count_eq_zero]
  intro hmem
  have hmem' : '/' ∈ (stringBytes s).flatMap
      (fun b => if pathSegmentKeep b then [Char.ofNat b] else escapeByte b) := hmem
  obtain ⟨b, hb, hch⟩ := List.mem_flatMap.mp hmem'
  have hlt := stringBytes_lt s b hb
  by_cases hk : pathSegmentKeep b
  · rw [if_pos hk] at hch
    simp only [List.mem_singleton] at hch
    exact keep_char_ne_slash b hlt hk hch.symm
  · rw [if_neg hk] at hch
    exact escape_char_ne_slash b hlt '/' hch rfl

/-- C5 as stated is false: `AccountService.GetAPIKey` concatenates the
caller-supplied key ID into the path raw.  For the ID `"a/b"` the path
is `/keys/a/b` — three slashes, an extra path component — instead of
the percent-encoded `/keys/a%2Fb`. -/
theorem claim_C5_counterexample :
    AccountService.GetAPIKey "a/b" = .ok ⟨"GET", "/keys/a/b", false⟩ ∧
    ("/keys/a/b".data.count '/') = 3 ∧
    "/keys/" ++ pathEscape "a/b" = "/keys/a%2Fb" := by decide

/-- C5 amended: the `MessagesService` operations place the caller's ID
into the path percent-encoded, and the encoded ID contains no '/' at
all (a single opaque segment); `AccountService.GetAPIKey`,
`GetAPIKeyUsage` and `RevokeAPIKey`, however, concatenate the ID
unencoded. -/
theorem claim_C5_amended_path_encoding (id : String) (h : id ≠ "") :
    MessagesService.Get id = .ok ⟨"GET", "/messages/" ++ pathEscape id, false⟩ ∧
    MessagesService.GetScheduled id
      = .ok ⟨"GET", "/messages/scheduled/" ++ pathEscape id, false⟩ ∧
    MessagesService.CancelScheduled id
      = .ok ⟨"DELETE", "/messages/scheduled/" ++ pathEscape id, false⟩ ∧
    MessagesService.GetBatch id
      = .ok ⟨"GET", "/messages/batch/" ++ pathEscape id, false⟩ ∧
    (pathEscape id).data.count '/' = 0 ∧
    AccountService.GetAPIKey id = .ok ⟨"GET", "/keys/" ++ id, false⟩ ∧
    AccountService.GetAPIKeyUsage id = .ok ⟨"GET", "/keys/" ++ id ++ "/usage", false⟩ ∧
    AccountService.RevokeAPIKey id = .ok ⟨"DELETE", "/account/keys/" ++ id, false⟩ := by
  refine ⟨?_, ?_, ?_, ?_, pathEscape_no_slash id, rfl, rfl, ?_⟩ <;>
    simp [MessagesService.Get, MessagesService.GetScheduled,
      MessagesService.CancelScheduled, MessagesService.GetBatch,
      AccountService.RevokeAPIKey, h]

/-- Witness for the amended C5 at the ID `"a/b"`. -/
theorem claim_C5_witness :
    MessagesService.Get "a/b" = .ok ⟨"GET", "/messages/a%2Fb", false⟩ ∧
    (pathEscape "a/b").data.count '/' = 0 := by
  have h := claim_C5_amended_path_encoding "a/b" (by decide)
  exact ⟨by rw [h.1]; decide, h.2.2.2.2.1⟩

/-- C6 as stated is false: `AccountService.GetAPIKey` performs no local
validation, so with an empty key ID it still hands the executor a call
to `/keys/` instead of returning a Validation error. -/
theorem claim_C6_counterexample :
    AccountService.GetAPIKey "" = .ok ⟨"GET", "/keys/", false⟩ := by decide

/-- C6 amended: every modelled `MessagesService` operation, plus
`CreateAPIKeyWithOptions` and `RevokeAPIKey`, rejects a locally invalid
input (nil request, empty identifier, empty mandatory field) with a
Validation error naming the missing field before any executor call;
`AccountService.GetAPIKey` and `GetAPIKeyUsage`, however, validate
nothing and forward even an empty identifier to the executor. -/
theorem claim_C6_amended_local_validation :
    (MessagesService.Send none = .error (validationErr "request is required")) ∧
    (∀ r : SendMessageRequest, r.to_ = "" →
      MessagesService.Send (some r) = .error (validationErr "to is required")) ∧
    (∀ r : SendMessageRequest, r.to_ ≠ "" → r.text = "" →
      MessagesService.Send (some r) = .error (validationErr "text is required")) ∧
    (MessagesService.Get "" = .error (validationErr "message ID is required")) ∧
    (MessagesService.Schedule none = .error (validationErr "request is required")) ∧
    (∀ r : ScheduleMessageRequest, r.to_ = "" →
      MessagesService.Schedule (some r) = .error (validationErr "to is required")) ∧
    (∀ r : ScheduleMessageRequest, r.to_ ≠ "" → r.text = "" →
      MessagesService.Schedule (some r) = .error (validationErr "text is required")) ∧
    (∀ r : ScheduleMessageRequest, r.to_ ≠ "" → r.text ≠ "" → r.scheduledAt = "" →
      MessagesService.Schedule (some r) = .error (validationErr "scheduledAt is required")) ∧
    (MessagesService.GetScheduled ""
      = .error (validationErr "scheduled message ID is required")) ∧
    (MessagesService.CancelScheduled ""
      = .error (validationErr "scheduled message ID is required")) ∧
    (MessagesService.SendBatch none = .error (validationErr "request is required")) ∧
    (∀ r : SendBatchRequest, r.messages = [] →
      MessagesService.SendBatch (some r) = .error (validationErr "messages are required")) ∧
    (MessagesService.GetBatch "" = .error (validationErr "batch ID is required")) ∧
    (∀ r : CreateAPIKeyRequest, r.name = "" →
      AccountService.CreateAPIKeyWithOptions r
        = .error (validationErr "API key name is required")) ∧
    (AccountService.RevokeAPIKey "" = .error (validationErr "API key ID is required")) ∧
    (∀ keyID, AccountService.GetAPIKey keyID = .ok ⟨"GET", "/keys/" ++ keyID, false⟩) ∧
    (∀ keyID, AccountService.GetAPIKeyUsage keyID
      = .ok ⟨"GET", "/keys/" ++ keyID ++ "/usage", false⟩) := by
  refine ⟨rfl, ?_, ?_, rfl, rfl, ?_, ?_, ?_, rfl, rfl, rfl, ?_, rfl, ?_, rfl,
    fun keyID => rfl, fun keyID => rfl⟩
  · intro r h; simp [MessagesService.Send, h]
  · intro r h1 h2; simp [MessagesService.Send, h1, h2]
  · intro r h; simp [MessagesService.Schedule, h]
  · intro r h1 h2; simp [MessagesService.Schedule, h1, h2]
  · intro r h1 h2 h3; simp [MessagesService.Schedule, h1, h2, h3]
  · intro r h; simp [MessagesService.SendBatch, h]
  · intro r h; simp [AccountService.CreateAPIKeyWithOptions, h]

/-- Witness for the amended C6: a send request with empty text. -/
theorem claim_C6_witness :
    MessagesService.Send (some ⟨"+15550001111", "", ""⟩)
      = .error (validationErr "text is required") :=
  claim_C6_amended_local_validation.2.2.1 ⟨"+15550001111", "", ""⟩ (by decide) rfl

/-- The per-item batch validation reports the first invalid item,
tagging the message with the item's absolute index. -/
lemma validateBatchMessages_first (ms : List BatchMessageItem) :
    ∀ (i k : Nat), i < ms.length →
      ((ms.getD i ⟨"", ""⟩).to_ = "" ∨ (ms.getD i ⟨"", ""⟩).text = "") →
      (∀ j, j < i → (ms.getD j ⟨"", ""⟩).to_ ≠ "" ∧ (ms.getD j ⟨"", ""⟩).text ≠ "") →
      ∃ p, validateBatchMessages ms k
        = some (validationErr (p ++ ("index " ++ toString (k + i)))) := by
  induction ms with
  | nil =>
    intro i k hi
    simp at hi
  | cons m ms ih =>
    intro i k hi hinv hvalid
    rcases i with _ | i
    · by_cases hto : m.to_ = ""
      · refine ⟨"to is required for message at ", ?_⟩
        have e : ("to is required for message at " ++ "index " : String)
            = "to is required for message at index " := by decide
        simp [validateBatchMessages, hto, ← String.append_assoc, e]
      · have htext : m.text = "" := by
          rcases hinv with h | h
          · exact absurd h hto
          · exact h
        refine ⟨"text is required for message at ", ?_⟩
        have e : ("text is required for message at " ++ "index " : String)
            = "text is required for message at index " := by decide
        simp [validateBatchMessages, hto, htext, ← String.append_assoc, e]
    · have h0 := hvalid 0 (Nat.succ_pos i)
      have hm : (m :: ms).getD 0 ⟨"", ""⟩ = m := rfl
      rw [hm] at h0
      have hrec := ih i (k + 1) (by simpa using hi) hinv
        (fun j hj => hvalid (j + 1) (by omega))
      obtain ⟨p, hp⟩ := hrec
      refine ⟨p, ?_⟩
      have harith : k + (i + 1) = k + 1 + i := by omega
      rw [harith, ← hp]
      simp [validateBatchMessages, h0.1, h0.2]

/-- C7: if some batch item is invalid and every earlier item is valid,
`SendBatch` returns a Validation error for that first invalid item
whose message contains the item's zero-based index, and no executor
call is made. -/
theorem claim_C7_batch_first_invalid (req : SendBatchRequest) (i : Nat)
    (hi : i < req.messages.length)
    (hinv : (req.messages.getD i ⟨"", ""⟩).to_ = ""
      ∨ (req.messages.getD i ⟨"", ""⟩).text = "")
    (hvalid : ∀ j, j < i →
      (req.messages.getD j ⟨"", ""⟩).to_ ≠ "" ∧ (req.messages.getD j ⟨"", ""⟩).text ≠ "") :
    ∃ msg, MessagesService.SendBatch (some req) = .error (validationErr msg) ∧
      ("index " ++ toString i).data <:+: msg.data := by
  obtain ⟨p, hp⟩ := validateBatchMessages_first req.messages i 0 hi hinv hvalid
  simp only [Nat.zero_add] at hp
  refine ⟨p ++ ("index " ++ toString i), ?_, ?_⟩
  · have hne : ¬ req.messages.length = 0 := by omega
    simp [MessagesService.SendBatch, hne, hp]
  · refine List.IsSuffix.isInfix ⟨p.data, ?_⟩
    simp [String.data_append]

/-- Witness for C7: the spec's concrete scenario — two items, the one
at index 1 with empty recipient. -/
theorem claim_C7_witness :
    ∃ msg, MessagesService.SendBatch
        (some ⟨[⟨"+15550001111", "hello"⟩, ⟨"", "there"⟩], "", ""⟩)
      = .error (validationErr msg) ∧ ("index 1").data <:+: msg.data := by
  have e : ("index " ++ toString (1 : Nat)) = "index 1" := by decide
  have h := claim_C7_batch_first_invalid
    ⟨[⟨"+15550001111", "hello"⟩, ⟨"", "there"⟩], "", ""⟩ 1
    (by decide) (by decide) (by decide)
  rw [e] at h
  exact h

/-- A string with the `sha256=` prefix is never empty. -/
lemma sha256_prefixed_ne_empty (x : String) : ("sha256=" ++ x) ≠ "" := by
  intro h
  have hl := congrArg String.length h
  rw [String.length_append] at hl
  have h7 : ("sha256=" : String).length = 7 := rfl
  have h0 : ("" : String).length = 0 := rfl
  omega

/-- C10: for every non-empty payload and secret, a signature produced
by `GenerateSignature` is accepted by `VerifySignature`; and whenever
the payload, the signature, or the secret is empty, `VerifySignature`
returns false. -/
theorem claim_C10_signature_roundtrip :
    (∀ payload secret, payload ≠ "" → secret ≠ "" →
      Webhooks.VerifySignature payload (Webhooks.GenerateSignature payload secret) secret
        = true) ∧
    (∀ payload signature secret, payload = "" ∨ signature = "" ∨ secret = "" →
      Webhooks.VerifySignature payload signature secret = false) := by
  constructor
  · intro payload secret h1 h2
    simp only [Webhooks.VerifySignature, Webhooks.GenerateSignature]
    rw [if_neg (by push_neg; exact ⟨h1, sha256_prefixed_ne_empty _, h2⟩)]
    simp
  · intro payload signature secret h
    simp only [Webhooks.VerifySignature]
    rw [if_pos h]

/-- Witness for C10: round-trip at `("x", "k")` and rejection of an
empty payload. -/
theorem claim_C10_witness :
    Webhooks.VerifySignature "x" (Webhooks.GenerateSignature "x" "k") "k" = true ∧
    Webhooks.VerifySignature "" "sig" "k" = false :=
  ⟨claim_C10_signature_roundtrip.1 "x" "k" (by decide) (by decide),
   claim_C10_signature_roundtrip.2 "" "sig" "k" (Or.inl rfl)⟩

end Sendly
